import Mathlib

/-!
Verification of the autolysis pipeline (src/autolysis.py) against its
specification.  The program is a linear pipeline:
encoding detection → CSV load → analysis → up to 3 histograms →
one HTTP narrative request (errors swallowed into the narrative string) →
README.md report.

The embedding below models the pandas DataFrame as an ordered list of
typed columns, file-system side effects as an explicit list of writes
threaded through a `ProcState`, and the external HTTP call as an
`HttpOutcome` input (the only behaviour of the remote service visible to
the program is success-with-content versus an exception).
-/

namespace Autolysis

/-- A single cell of the loaded table.  pandas represents missing entries
as NaN/None; the inferred numeric values are modelled as rationals since
no claim depends on float rounding. -/
inductive Cell where
  | num (x : Rat)
  | text (s : String)
  | boolean (b : Bool)
  | missing
deriving DecidableEq

/-- The pandas dtype inferred for a column at load time;
`select_dtypes(include=['number'])` keeps exactly the numeric ones. -/
inductive DType where
  | numeric
  | textual
  | boolean
deriving DecidableEq

/-- A named column: the unit of the Dataset data model. -/
structure Column where
  name : String
  dtype : DType
  cells : List Cell
deriving DecidableEq

/-- The Dataset: an ordered collection of named columns. -/
structure DataFrame where
  cols : List Column
deriving DecidableEq

/-- Number of rows; pandas DataFrames are rectangular, so the first
column's length is the row count (0 for a column-free frame). -/
def nrows (df : DataFrame) : Nat :=
  match df.cols with
  | [] => 0
  | c :: _ => c.cells.length

/-- Rectangularity invariant guaranteed by the pandas loader: every
column has the row count many cells. -/
def wellFormed (df : DataFrame) : Prop :=
  ∀ c ∈ df.cols, c.cells.length = nrows df

instance (df : DataFrame) : Decidable (wellFormed df) :=
  List.decidableBAll _ df.cols

/-- Model of `df.empty`: true when any axis has length 0. -/
def dfEmpty (df : DataFrame) : Bool :=
  df.cols.isEmpty || nrows df == 0

/-- Model of `df.select_dtypes(include=['number'])` (column order kept). -/
def numericColumns (df : DataFrame) : List Column :=
  df.cols.filter (fun c => c.dtype == DType.numeric)

/-- Model of `pd.isnull` on one cell. -/
def isMissing : Cell → Bool
  | Cell.missing => true
  | _ => false

/-- True for the cells a numeric column can hold (a numeric dtype column
contains only numbers and NaNs). -/
def isNumOrMissing : Cell → Bool
  | Cell.num _ => true
  | Cell.missing => true
  | _ => false

/-- Model of `df[column].dropna()` on a numeric column: the numeric
values with the missing entries removed, in row order. -/
def dropna (c : Column) : List Rat :=
  c.cells.filterMap (fun v =>
    match v with
    | Cell.num x => some x
    | _ => none)

def ratSum (l : List Rat) : Rat :=
  l.foldl (· + ·) 0

def ratMean (l : List Rat) : Rat :=
  ratSum l / (l.length : Rat)

/-- Per-column slice of `df.describe(include='all')`.  pandas emits
further statistics (std, quartiles, unique/top/freq); none are inspected
by any claim, and std is not exactly representable over ℚ, so the model
keeps the count and the mean. -/
structure ColSummary where
  count : Nat
  mean : Option Rat
deriving DecidableEq

def describeCol (c : Column) : ColSummary :=
  { count := (c.cells.filter (fun v => !isMissing v)).length
    mean :=
      if c.dtype = DType.numeric then
        if dropna c = [] then none else some (ratMean (dropna c))
      else none }

/-- The exact data determining one Pearson correlation entry of
`numeric_df.corr()`: pandas uses pairwise-complete observations; the real
value is cov / √(varx·vary), kept here in its defining components since
the square root leaves ℚ and no claim inspects the value. -/
structure PearsonData where
  n : Nat
  cov : Rat
  varx : Rat
  vary : Rat
deriving DecidableEq

/-- Rows where both columns have a numeric (non-missing) value. -/
def pairedVals (x y : Column) : List (Rat × Rat) :=
  (x.cells.zip y.cells).filterMap (fun p =>
    match p with
    | (Cell.num a, Cell.num b) => some (a, b)
    | _ => none)

def pearsonData (x y : Column) : PearsonData :=
  let ps := pairedVals x y
  let mx := ratMean (ps.map Prod.fst)
  let my := ratMean (ps.map Prod.snd)
  { n := ps.length
    cov := ratSum (ps.map (fun p => (p.1 - mx) * (p.2 - my)))
    varx := ratSum (ps.map (fun p => (p.1 - mx) ^ 2))
    vary := ratSum (ps.map (fun p => (p.2 - my) ^ 2)) }

/-- The Analysis Result record built by `analyze_data`. -/
structure Analysis where
  summary : List (String × ColSummary)
  missing_values : List (String × Nat)
  correlation : List (String × List (String × PearsonData))
deriving DecidableEq

/-- Model of `analyze_data` (src/autolysis.py lines 32-40): summary from
`df.describe(include='all')`, per-column null counts from
`df.isnull().sum()`, and the correlation matrix of the numeric columns
when more than one exists, else the empty dict. -/
def analyze_data (df : DataFrame) : Analysis :=
  let numeric_df := numericColumns df
  { summary := df.cols.map (fun c => (c.name, describeCol c))
    missing_values := df.cols.map (fun c => (c.name, c.cells.countP isMissing))
    correlation :=
      if numeric_df.length > 1 then
        numeric_df.map (fun x => (x.name, numeric_df.map (fun y => (y.name, pearsonData x y))))
      else [] }

/-- Content of a file written by the pipeline: a saved histogram image
(title and the plotted values) or a Markdown file given by the chunks
passed to `f.write`, in order. -/
inductive FileContent where
  | image (title : String) (data : List Rat)
  | markdown (chunks : List String)
deriving DecidableEq

/-- Observable process state: lines printed so far and files written so
far (name and content, in write order). -/
structure ProcState where
  stdout : List String
  files : List (String × FileContent)
deriving DecidableEq

/-- One iteration of the `for` loop of `visualize_data`: plot the
column's `dropna()` histogram, save it under
`f"{column}_distribution.png"`, and append that name to `image_files`. -/
def vizStep (acc : ProcState × List String) (column : Column) : ProcState × List String :=
  let image_file := column.name ++ "_distribution.png"
  ({ acc.1 with
      files := acc.1.files ++
        [(image_file, FileContent.image ("Distribution of " ++ column.name) (dropna column))] },
    acc.2 ++ [image_file])

/-- Model of `visualize_data` (src/autolysis.py lines 42-57): iterate
over the first 3 numeric columns, saving one chart each and collecting
the file names. -/
def visualize_data (df : DataFrame) (s : ProcState) : ProcState × List String :=
  let numeric_columns := numericColumns df
  (numeric_columns.take 3).foldl vizStep (s, [])

/-- The chart file name for a column (unsanitized column name). -/
def chartName (c : Column) : String :=
  c.name ++ "_distribution.png"

/-- The chart file write produced for a column. -/
def chartEntry (c : Column) : String × FileContent :=
  (chartName c, FileContent.image ("Distribution of " ++ c.name) (dropna c))

theorem foldl_vizStep (cols : List Column) (s : ProcState) (acc : List String) :
    cols.foldl vizStep (s, acc) =
      ({ s with files := s.files ++ cols.map chartEntry }, acc ++ cols.map chartName) := by
  induction cols generalizing s acc with
  | nil => simp
  | cons c cs ih =>
      simp only [List.foldl_cons, vizStep, ih, List.map_cons]
      refine Prod.ext ?_ ?_ <;> simp [chartEntry, chartName]

theorem visualize_data_eq (df : DataFrame) (s : ProcState) :
    visualize_data df s =
      ({ s with files := s.files ++ ((numericColumns df).take 3).map chartEntry },
        ((numericColumns df).take 3).map chartName) := by
  simp [visualize_data, foldl_vizStep]

/-- Why the narrative `try` block of `generate_story_and_readme` can end
abnormally: `httpx.post` raising (transport error / timeout),
`raise_for_status` raising on a non-2xx status, or the response body not
holding `choices[0].message.content` (JSON decoding / key lookup
raising).  The source catches all of them with one bare `except`. -/
inductive FailKind where
  | transport
  | status
  | badBody
deriving DecidableEq

/-- Outcome of the single remote narrative request, as visible to the
program: either the extracted completion text, or the message of the
exception that escaped the `try` block. -/
inductive HttpOutcome where
  | success (content : String)
  | failure (kind : FailKind) (message : String)
deriving DecidableEq

/-- The narrative string produced by the `try`/`except` of
`generate_story_and_readme` (src/autolysis.py lines 77-82):
the completion text on success, `f"Error generating story: {e}"` on any
exception. -/
def narrativeOf : HttpOutcome → String
  | HttpOutcome.success content => content
  | HttpOutcome.failure _ e => "Error generating story: " ++ e

/-- The chunks written to README.md, one per `f.write` call, in order
(src/autolysis.py lines 84-91). -/
def readmeChunks (narrative : String) (image_files : List String) : List String :=
  ["# Dataset Analysis\n\n", "## Story\n", narrative ++ "\n\n", "## Visualizations\n"] ++
    image_files.map (fun img => "![" ++ img ++ "](./" ++ img ++ ")\n")

/-- Model of `generate_story_and_readme` (src/autolysis.py lines 59-91).
The prompt embeds a rendering of the analysis and is consumed only by
the remote service, whose behaviour the model abstracts as the
`HttpOutcome` input; README.md is then written unconditionally. -/
def generate_story_and_readme (analysis : Analysis) (image_files : List String)
    (http : HttpOutcome) (s : ProcState) : ProcState :=
  { s with
      files := s.files ++
        [(("README.md"), FileContent.markdown (readmeChunks (narrativeOf http) image_files))] }

/-- The analysis stage of `main`, as a step of the state-threaded
pipeline: `analyze_data` performs no I/O and touches no process state. -/
def analyzeStep (df : DataFrame) (s : ProcState) : ProcState × Analysis :=
  (s, analyze_data df)

/-- Model of `main` (src/autolysis.py lines 93-110).  Inputs that come
from the environment are parameters: whether `os.path.isfile` holds,
the result of `load_data` (the loaded frame, or the message of the
`pd.read_csv` exception), and the HTTP outcome.  Returns the final
observable state and the process exit code. -/
def runMain (file_path : String) (pathIsFile : Bool) (load : Except String DataFrame)
    (http : HttpOutcome) : ProcState × Nat :=
  let s0 : ProcState := { stdout := [], files := [] }
  if !pathIsFile then
    ({ s0 with stdout := s0.stdout ++ ["Error: File " ++ file_path ++ " not found."] }, 1)
  else
    match load with
    | Except.error e =>
        ({ s0 with stdout := s0.stdout ++ ["Error loading file: " ++ e] }, 1)
    | Except.ok df =>
        if dfEmpty df then
          ({ s0 with stdout := s0.stdout ++ ["Error: Dataset is empty. Exiting."] }, 1)
        else
          let a := analyzeStep df s0
          let v := visualize_data df a.1
          let s3 := generate_story_and_readme a.2 v.2 http v.1
          ({ s3 with
              stdout := s3.stdout ++ ["README.md and visualizations created successfully!"] }, 0)

/-- Model of Python `dict.get(key, default)` on the chardet result,
restricted to the encoding-valued entries: the stored value (which may
itself be None) when the key is present, the default otherwise. -/
def dictGet (d : List (String × Option String)) (key : String) (default : Option String) :
    Option String :=
  match d.find? (fun p => p.1 == key) with
  | some p => p.2
  | none => default

/-- The encoding label chosen by `load_data`
(src/autolysis.py line 25): `result.get('encoding', 'utf-8')` applied to
the `chardet.detect` result. -/
def encodingOf (result : List (String × Option String)) : Option String :=
  dictGet result ("encoding") (some ("utf-8"))

/-- Sample numeric column with a missing entry. -/
def colA : Column :=
  { name := "a", dtype := DType.numeric
    cells := [Cell.num 1, Cell.num 2, Cell.missing, Cell.num 4] }

/-- Sample numeric column with no missing entry. -/
def colB : Column :=
  { name := "b", dtype := DType.numeric
    cells := [Cell.num 2, Cell.num 3, Cell.num 5, Cell.num 7] }

/-- Sample text column. -/
def colC : Column :=
  { name := "c", dtype := DType.textual
    cells := [Cell.text ("x"), Cell.text ("y"), Cell.missing, Cell.text ("z")] }

/-- Sample frame: two numeric columns (the first with a missing entry)
and one text column, four rows. -/
def dfSample : DataFrame :=
  { cols := [colA, colB, colC] }

/-- Sample frame with one row and no numeric column. -/
def dfNoNum : DataFrame :=
  { cols := [ { name := "c", dtype := DType.textual, cells := [Cell.text ("x")] } ] }

/-- Sample frame with a column header but zero data rows. -/
def dfZeroRows : DataFrame :=
  { cols := [ { name := "a", dtype := DType.numeric, cells := [] } ] }

/-- C2: for a frame with k numeric columns, `visualize_data` yields
exactly min(k, 3) chart artifacts, one per numeric column, named after
the first three numeric columns in dataset order. -/
theorem visualize_data_min_k_three (df : DataFrame) (s : ProcState) :
    (visualize_data df s).2.length = min (numericColumns df).length 3 ∧
    (visualize_data df s).2 = ((numericColumns df).take 3).map chartName ∧
    ((visualize_data df s).1.files.drop s.files.length) =
      ((numericColumns df).take 3).map chartEntry := by
  simp [visualize_data_eq, Nat.min_comm]

/-- C6: on a non-existent input path, `main` prints a diagnostic to
stdout and exits with code 1; no file is written, and the result does
not depend on the loader or the HTTP service (nothing after the check
runs). -/
theorem missing_file_exits_nonzero (file_path : String) (load : Except String DataFrame)
    (http : HttpOutcome) :
    runMain file_path false load http =
      ({ stdout := ["Error: File " ++ file_path ++ " not found."], files := [] }, 1) := by
  simp [runMain]

/-- C8: the analysis stage is pure: it leaves the process state (files,
stdout) untouched, its result is `analyze_data` of the frame alone
(hence independent of the state and, `analyze_data` being a function,
the same frame always yields the same result), and the frame itself is
not part of the mutable state at all. -/
theorem analyze_data_pure_step (df : DataFrame) (s : ProcState) :
    (analyzeStep df s).1 = s ∧
    (analyzeStep df s).2 = analyze_data df ∧
    ∀ s2 : ProcState, (analyzeStep df s).2 = (analyzeStep df s2).2 := by
  exact ⟨rfl, rfl, fun _ => rfl⟩

/-- C4 counterexample: when detection yields no result, chardet returns
a dict that maps the key to None (the key is present); `dict.get`
then returns None, not the UTF-8 default, so the claimed fallback is not
taken. -/
theorem encoding_fallback_not_taken_cex :
    encodingOf [(("encoding"), none)] ≠ some ("utf-8") ∧
    encodingOf [(("encoding"), none)] = none := by
  exact ⟨by decide, rfl⟩

/-- C4 amended: the chosen label is the detected encoding when detection
yields one; the UTF-8 default is taken only when the detection result
lacks the key entirely; when the key is present with no value (how
chardet reports failed detection) the chosen label is the null value,
not UTF-8. -/
theorem encoding_selection_amended (s : String) :
    encodingOf [(("encoding"), some s)] = some s ∧
    encodingOf [] = some ("utf-8") ∧
    encodingOf [(("encoding"), none)] = none := by
  exact ⟨rfl, rfl, rfl⟩

/-- C3: with fewer than two numeric columns the correlation component of
the Analysis Result is the empty mapping; with two or more it is indexed
(rows and columns both) exactly by the numeric columns, in order. -/
theorem correlation_empty_or_numeric_only (df : DataFrame) :
    ((numericColumns df).length < 2 → (analyze_data df).correlation = []) ∧
    (2 ≤ (numericColumns df).length →
      (analyze_data df).correlation.map Prod.fst = (numericColumns df).map Column.name ∧
      ∀ row ∈ (analyze_data df).correlation,
        row.2.map Prod.fst = (numericColumns df).map Column.name) := by
  constructor
  · intro h
    have hn : ¬ (numericColumns df).length > 1 := by omega
    simp [analyze_data, hn]
  · intro h
    have hn : (numericColumns df).length > 1 := by omega
    constructor
    · simp [analyze_data, hn, List.map_map, Function.comp]
    · intro row hrow
      simp [analyze_data, hn] at hrow
      obtain ⟨x, hx, rfl⟩ := hrow
      simp [List.map_map, Function.comp]

theorem correlation_empty_or_numeric_only_witness :
    (analyze_data dfNoNum).correlation = [] ∧
    (analyze_data dfSample).correlation.map Prod.fst = (numericColumns dfSample).map Column.name :=
  ⟨(correlation_empty_or_numeric_only dfNoNum).1 (by decide),
   ((correlation_empty_or_numeric_only dfSample).2 (by decide)).1⟩

/-- C5: when the loaded frame has zero rows, `main` prints a diagnostic
and exits with code 1, and nothing is written (the chart and report
stages never run). -/
theorem empty_dataset_exits_nonzero (file_path : String) (df : DataFrame)
    (http : HttpOutcome) (h : nrows df = 0) :
    runMain file_path true (Except.ok df) http =
      ({ stdout := ["Error: Dataset is empty. Exiting."], files := [] }, 1) := by
  have he : dfEmpty df = true := by simp [dfEmpty, h]
  simp [runMain, he]

theorem empty_dataset_exits_nonzero_witness :
    runMain ("data.csv") true (Except.ok dfZeroRows)
        (HttpOutcome.failure FailKind.transport ("timeout")) =
      ({ stdout := ["Error: Dataset is empty. Exiting."], files := [] }, 1) :=
  empty_dataset_exits_nonzero ("data.csv") dfZeroRows
    (HttpOutcome.failure FailKind.transport ("timeout")) rfl

/-- C7: on a rectangular frame with at least one row, every per-column
missing-value count of the Analysis Result is at most the row count (and
the counts live in ℕ, so none is negative). -/
theorem missing_counts_le_row_count (df : DataFrame) (hwf : wellFormed df)
    (hrow : 1 ≤ nrows df) :
    ∀ p ∈ (analyze_data df).missing_values, p.2 ≤ nrows df := by
  intro p hp
  simp [analyze_data] at hp
  obtain ⟨c, hc, rfl⟩ := hp
  simpa [hwf c hc] using (hwf c hc) ▸ List.countP_le_length (l := c.cells) (p := isMissing)

theorem missing_counts_le_row_count_witness :
    wellFormed dfSample ∧ 1 ≤ nrows dfSample ∧
      ∀ p ∈ (analyze_data dfSample).missing_values, p.2 ≤ nrows dfSample :=
  ⟨by decide, by decide, missing_counts_le_row_count dfSample (by decide) (by decide)⟩

theorem filterMap_num_length_add_countP (cells : List Cell)
    (h : ∀ v ∈ cells, isNumOrMissing v = true) :
    (cells.filterMap (fun v =>
        match v with
        | Cell.num x => some x
        | _ => none)).length + cells.countP isMissing = cells.length := by
  induction cells with
  | nil => rfl
  | cons v vs ih =>
      have hv := h v (List.mem_cons_self v vs)
      have hvs : ∀ u ∈ vs, isNumOrMissing u = true :=
        fun u hu => h u (List.mem_cons_of_mem v hu)
      cases v with
      | num x =>
          have := ih hvs
          simp [List.filterMap_cons, List.countP_cons, isMissing]
          omega
      | missing =>
          have := ih hvs
          simp [List.filterMap_cons, List.countP_cons, isMissing]
          omega
      | text s => simp [isNumOrMissing] at hv
      | boolean b => simp [isNumOrMissing] at hv

/-- The plotted values of a numeric-typed column together with its
missing entries account for every cell: `dropna` removes exactly the
missing ones. -/
theorem dropna_length_add_missing (c : Column)
    (h : ∀ v ∈ c.cells, isNumOrMissing v = true) :
    (dropna c).length + c.cells.countP isMissing = c.cells.length :=
  filterMap_num_length_add_countP c.cells h

/-- C9: every numeric column among the first three gets a chart — the
histogram is over the column's `dropna()` values (its non-missing
entries, which together with the missing ones account for every cell,
so a chart exists even when the column holds missing entries) — and the
saved file name is the unsanitized column name followed by
"_distribution.png". -/
theorem visualize_drops_missing_and_names_file (df : DataFrame) (s : ProcState)
    (c : Column) (hmem : c ∈ (numericColumns df).take 3)
    (hty : ∀ v ∈ c.cells, isNumOrMissing v = true) :
    ((c.name ++ "_distribution.png"),
        FileContent.image ("Distribution of " ++ c.name) (dropna c)) ∈
      (visualize_data df s).1.files ∧
    (c.name ++ "_distribution.png") ∈ (visualize_data df s).2 ∧
    (dropna c).length + c.cells.countP isMissing = c.cells.length := by
  refine ⟨?_, ?_, dropna_length_add_missing c hty⟩
  · rw [visualize_data_eq]
    refine List.mem_append_right _ ?_
    have hmap := List.mem_map_of_mem chartEntry hmem
    simpa [chartEntry, chartName] using hmap
  · rw [visualize_data_eq]
    have hmap := List.mem_map_of_mem chartName hmem
    simpa [chartName] using hmap

theorem visualize_drops_missing_and_names_file_witness :
    ((colA.name ++ "_distribution.png"),
        FileContent.image ("Distribution of " ++ colA.name) (dropna colA)) ∈
      (visualize_data dfSample { stdout := [], files := [] }).1.files ∧
    (colA.name ++ "_distribution.png") ∈
      (visualize_data dfSample { stdout := [], files := [] }).2 ∧
    (dropna colA).length + colA.cells.countP isMissing = colA.cells.length :=
  visualize_drops_missing_and_names_file dfSample { stdout := [], files := [] } colA
    (by decide) (by decide)

/-- C10: on a non-empty frame with no numeric column the pipeline still
completes with exit code 0: `visualize_data` yields no artifact, and the
only file written is README.md, whose chunks end with the
"## Visualizations" heading followed by zero image references. -/
theorem no_numeric_columns_still_completes (file_path : String) (df : DataFrame)
    (http : HttpOutcome) (hnum : numericColumns df = []) (hne : dfEmpty df = false) :
    runMain file_path true (Except.ok df) http =
      ({ stdout := ["README.md and visualizations created successfully!"],
         files := [(("README.md"), FileContent.markdown
            ["# Dataset Analysis\n\n", "## Story\n", narrativeOf http ++ "\n\n",
             "## Visualizations\n"])] }, 0) ∧
    (visualize_data df { stdout := [], files := [] }).2 = [] := by
  constructor
  · simp [runMain, hne, analyzeStep, visualize_data_eq, hnum, generate_story_and_readme,
      readmeChunks]
  · simp [visualize_data_eq, hnum]

theorem no_numeric_columns_still_completes_witness :
    runMain ("notes.csv") true (Except.ok dfNoNum) (HttpOutcome.success ("a tale")) =
      ({ stdout := ["README.md and visualizations created successfully!"],
         files := [(("README.md"), FileContent.markdown
            ["# Dataset Analysis\n\n", "## Story\n",
             narrativeOf (HttpOutcome.success ("a tale")) ++ "\n\n",
             "## Visualizations\n"])] }, 0) ∧
    (visualize_data dfNoNum { stdout := [], files := [] }).2 = [] :=
  no_numeric_columns_still_completes ("notes.csv") dfNoNum (HttpOutcome.success ("a tale"))
    (by decide) (by decide)

/-- C1: when the frame loaded and analysed fine but the narrative
request fails in any way, `main` still exits 0 and README.md is written
with a "## Story" section holding the error string
`"Error generating story: " ++ e` and a "## Visualizations" section
holding one image reference per generated chart. -/
theorem narrative_failure_still_writes_report (file_path : String) (df : DataFrame)
    (k : FailKind) (e : String) (h : dfEmpty df = false) :
    (runMain file_path true (Except.ok df) (HttpOutcome.failure k e)).2 = 0 ∧
    ∃ chunks : List String,
      (("README.md"), FileContent.markdown chunks) ∈
          (runMain file_path true (Except.ok df) (HttpOutcome.failure k e)).1.files ∧
      ("## Story\n") ∈ chunks ∧
      (("Error generating story: " ++ e) ++ "\n\n") ∈ chunks ∧
      ("## Visualizations\n") ∈ chunks ∧
      ∀ img ∈ (visualize_data df { stdout := [], files := [] }).2,
        ("![" ++ img ++ "](./" ++ img ++ ")\n") ∈ chunks := by
  have hrun : runMain file_path true (Except.ok df) (HttpOutcome.failure k e) =
      ({ stdout := ["README.md and visualizations created successfully!"],
         files := ((numericColumns df).take 3).map chartEntry ++
           [(("README.md"), FileContent.markdown
              (readmeChunks (("Error generating story: " ++ e))
                (((numericColumns df).take 3).map chartName)))] }, 0) := by
    simp [runMain, h, analyzeStep, visualize_data_eq, generate_story_and_readme, narrativeOf]
  refine ⟨by rw [hrun],
    readmeChunks (("Error generating story: " ++ e)) (((numericColumns df).take 3).map chartName),
    ?_, ?_, ?_, ?_, ?_⟩
  · rw [hrun]
    exact List.mem_append_right _ (List.mem_singleton.mpr rfl)
  · simp [readmeChunks]
  · simp [readmeChunks]
  · simp [readmeChunks]
  · intro img himg
    rw [visualize_data_eq] at himg
    simp only [readmeChunks]
    refine List.mem_append_right _ ?_
    exact List.mem_map_of_mem _ himg

theorem narrative_failure_still_writes_report_witness :
    (runMain ("data.csv") true (Except.ok dfSample)
        (HttpOutcome.failure FailKind.transport ("Connection timed out"))).2 = 0 ∧
    ∃ chunks : List String,
      (("README.md"), FileContent.markdown chunks) ∈
          (runMain ("data.csv") true (Except.ok dfSample)
            (HttpOutcome.failure FailKind.transport ("Connection timed out"))).1.files ∧
      ("## Story\n") ∈ chunks ∧
      (("Error generating story: " ++ "Connection timed out") ++ "\n\n") ∈ chunks ∧
      ("## Visualizations\n") ∈ chunks ∧
      ∀ img ∈ (visualize_data dfSample { stdout := [], files := [] }).2,
        ("![" ++ img ++ "](./" ++ img ++ ")\n") ∈ chunks :=
  narrative_failure_still_writes_report ("data.csv") dfSample FailKind.transport
    ("Connection timed out") (by decide)

end Autolysis
